import Mathlib

/-!
Shallow embedding of the core of the Firebase-NodeJS repository: the RTDB
query engine (constraint validation and read/write/subscribe dispatch,
`src/rtdb.ts`) and the connection-liveness state machine
(`src/connection/connection.ts`).  JavaScript runtime values are embedded as
an inductive `JSValue`; JS numbers are embedded as exact rationals (`Rat`),
which is faithful on the integer-and-small-decimal inputs exercised here.
Thrown exceptions are embedded as `Except JSError`.
-/

namespace FirebaseNodeJS

/-- Embedded JavaScript runtime value. `vnull`/`vundefined` are the JS `null` and
`undefined`; `vobj` is a plain object as an insertion-ordered field list
(mirroring `Object.entries` order); `vfun` stands for any function value. -/
inductive JSValue where
  | vstr (s : String)
  | vnum (q : Rat)
  | vbool (b : Bool)
  | vnull
  | vundefined
  | vobj (fields : List (String × JSValue))
  | vfun

/-- Embedded JavaScript exception: `new TypeError(msg)` or `new Error(msg)`
(the repository also has an `RTDBError`, unused by the modelled paths). -/
inductive JSError where
  | typeError (msg : String)
  | jsError (msg : String)
  deriving DecidableEq, Repr

namespace JSValue

/-- Embeds the JS `typeof` operator (note `typeof null` is `"object"`). -/
def jsTypeof : JSValue → String
  | vstr _ => "string"
  | vnum _ => "number"
  | vbool _ => "boolean"
  | vnull => "object"
  | vundefined => "undefined"
  | vobj _ => "object"
  | vfun => "function"

/-- Embeds JS truthiness (falsy values: `undefined`, `null`, `false`, `0`,
the empty string; `NaN` is not representable as a `vnum`). -/
def truthy : JSValue → Bool
  | vstr s => s ≠ ""
  | vnum q => q ≠ 0
  | vbool b => b
  | vnull => false
  | vundefined => false
  | vobj _ => true
  | vfun => true

/-- Tests for the JS value `null` (strict equality `v === null`). -/
def isNull : JSValue → Bool
  | vnull => true
  | _ => false

/-- Tests for the JS value `undefined` (strict equality `v === undefined`). -/
def isUndefined : JSValue → Bool
  | vundefined => true
  | _ => false

/-- Embeds JS property access `v[name]` as used on constraint records: a
missing field reads as `undefined`.  (Property access on `null`/`undefined`
throws in JS; the modelled code paths only read fields after a
`typeof v === "object"` guard, and collapsing the `null` case to `undefined`
yields the same rejection in `applyOne`.) -/
def getField (v : JSValue) (name : String) : JSValue :=
  match v with
  | vobj fields => ((fields.find? (fun p => p.1 = name)).map (fun p => p.2)).getD vundefined
  | _ => vundefined

/-- Embeds `Object.entries` on the values the modelled code reaches. -/
def objFields : JSValue → List (String × JSValue)
  | vobj fields => fields
  | _ => []

end JSValue

/-- Decimal digit characters, used to model the JS number/string builtins. -/
def isDigitChar (c : Char) : Bool := 48 ≤ c.toNat && c.toNat ≤ 57

/-- Whitespace stripped by the JS `String.prototype.trim` / `Number` coercion
(restricted to the ASCII whitespace actually occurring in the inputs). -/
def isJsWhitespace (c : Char) : Bool :=
  c.toNat = 32 || c.toNat = 9 || c.toNat = 10 || c.toNat = 13

/-- Character for a single decimal digit (`d < 10`). -/
def digitChar : Nat → Char
  | 0 => '0' | 1 => '1' | 2 => '2' | 3 => '3' | 4 => '4'
  | 5 => '5' | 6 => '6' | 7 => '7' | 8 => '8' | 9 => '9'
  | _ => '*'

/-- Fuel-indexed decimal rendering of a natural number (most significant
digit first); `fuel = n + 1` is always sufficient. -/
def natToCharsAux : Nat → Nat → List Char
  | 0, _ => []
  | f + 1, n =>
    if n < 10 then [digitChar n]
    else natToCharsAux f (n / 10) ++ [digitChar (n % 10)]

/-- Modelled JS builtin `String(n)` on a natural number: its decimal digits. -/
def jsStringOfNat (n : Nat) : String := String.mk (natToCharsAux (n + 1) n)

/-- Numeric value of a list of decimal digit characters. -/
def digitsVal (cs : List Char) : Nat :=
  cs.foldl (fun acc c => acc * 10 + (c.toNat - 48)) 0

/-- Splits a character list at every dot, mirroring `"…".split(".")`. -/
def splitDot : List Char → List (List Char)
  | [] => [[]]
  | c :: rest =>
    if c.toNat = 46 then [] :: splitDot rest
    else
      match splitDot rest with
      | [] => [[c]]
      | h :: t => (c :: h) :: t

/-- Parses an unsigned decimal literal (integer part, optional dot, optional
fraction part) to an exact rational; anything else is `none` (NaN). -/
def parseDec (cs : List Char) : Option Rat :=
  match splitDot cs with
  | [ip] => if ip ≠ [] && ip.all isDigitChar then some ((digitsVal ip : Nat) : Rat) else none
  | [ip, fp] =>
    if ip = [] && fp = [] then none
    else if ip.all isDigitChar && fp.all isDigitChar then
      some (((digitsVal ip : Nat) : Rat) + ((digitsVal fp : Nat) : Rat) / ((10 : Rat) ^ fp.length))
    else none
  | _ => none

/-- Strips leading and trailing JS whitespace from a character list. -/
def jsTrimChars (l : List Char) : List Char :=
  ((l.dropWhile isJsWhitespace).reverse.dropWhile isJsWhitespace).reverse

/-- Sign handling and body of the modelled `Number(s)` coercion, applied to
the trimmed character list. -/
def jsNumberChars : List Char → Option Rat
  | [] => some 0
  | c :: rest =>
    if c = '-' then (parseDec rest).map (fun v => -v)
    else if c = '+' then parseDec rest
    else parseDec (c :: rest)

/-- Modelled JS builtin `Number(s)` on a string: whitespace is trimmed, the
empty remainder is `0`, an optional sign precedes a decimal literal; inputs
outside this decimal fragment (exponents, hex, `Infinity`, …) are collapsed
to NaN (`none`), which is faithful on every input the repository exercises. -/
def jsNumber (s : String) : Option Rat :=
  jsNumberChars (jsTrimChars s.data)

/-- Modelled JS `s.trim()` (ASCII-whitespace fragment, as in `jsNumber`). -/
def jsTrim (s : String) : String :=
  String.mk (jsTrimChars s.data)

/-- Tests a path string against the forbidden-character regex
`/[.#$\[\]]/` of `RTDB.checkPath`. -/
def hasForbiddenPathChar (s : String) : Bool :=
  s.data.any (fun c => c.toNat = 46 || c.toNat = 35 || c.toNat = 36 || c.toNat = 91 || c.toNat = 93)

open JSValue

/-- Embeds `RTDB.checkPath(path, empty)`.  Returns the parsed path, where
`none` is the JS `undefined` result (root location): produced when `empty`
permits an absent path, and also by the final `return path.trim() ||
undefined` when the path trims to the empty string. -/
def checkPath (path : JSValue) (empty : Bool) : Except JSError (Option String) :=
  if empty && path.isUndefined then .ok none
  else if !empty && path.isUndefined then .error (.typeError "The PATH do not exist!")
  else if !empty && !path.truthy then .error (.typeError "PATH must be non-empty string!")
  else
    match path with
    | .vstr s =>
      if hasForbiddenPathChar s then
        .error (.jsError "PATH must not contain \".\", \"#\", \"$\", \"[\", or \"]\"")
      else .ok (if jsTrim s = "" then none else some (jsTrim s))
    | _ => .error (.typeError "PATH must be a string!")

/-- Embeds `RTDB.checkPriority`: `null` passes through; an integer number
greater than 0 passes through; a string is coerced with `Number(...)` and
accepted when that yields an integer greater than 0; all else throws. -/
def checkPriority (priority : JSValue) : Except JSError JSValue :=
  if priority.isNull then .ok priority
  else if priority.isUndefined then .error (.typeError "The Priority do not exist!")
  else
    match priority with
    | .vnum q =>
      if q.den = 1 ∧ 0 < q then .ok (.vnum q)
      else .error (.typeError "The priority must be an INTEGER > 0!")
    | .vstr s =>
      match jsNumber s with
      | some q =>
        if q.den = 1 ∧ 0 < q then .ok (.vnum q)
        else .error (.typeError "The priority must be an INTEGER > 0!")
      | none => .error (.typeError "The priority must be an INTEGER > 0!")
    | _ => .error (.typeError "The priority must be an INTEGER > 0!")

/-- Runtime keys of the TS numeric enum `QueryMethodMap`: a numeric enum
object also carries the reverse mapping, so the stringified indices are `in`
the object as well. -/
def queryMethodKeys : List String :=
  ["set", "push", "update", "remove", "setPriority", "setWithPriority",
   "0", "1", "2", "3", "4", "5"]

/-- Runtime keys of the TS numeric enum `OnDisconnectMethodMap` (with the
reverse numeric keys, as for `queryMethodKeys`). -/
def onDisconnectMethodKeys : List String :=
  ["cancel", "set", "update", "remove", "setWithPriority", "0", "1", "2", "3", "4"]

/-- Runtime keys of the TS string enum `ListenerMap` (a string enum has no
reverse mapping). -/
def listenerKeys : List String :=
  ["value", "child_added", "child_changed", "child_moved", "child_removed"]

/-- Embeds `RTDB.checkQueryMethod` (the trailing message text of
`printEnumKeys(QueryMethodMap)` is abbreviated; no claim inspects it). -/
def checkQueryMethod (method : JSValue) : Except JSError String :=
  if method.isUndefined then .error (.typeError "Query Method do not exist!")
  else
    match method with
    | .vstr s =>
      if queryMethodKeys.contains s then .ok s
      else .error (.jsError "Query Method must be one of the QueryMethodMap keys.")
    | _ => .error (.typeError "Query Method must be a string!")

/-- Embeds `RTDB.checkOnDisconnectQueryMethod`. -/
def checkOnDisconnectQueryMethod (method : JSValue) : Except JSError String :=
  if method.isUndefined then .error (.typeError "On Disconnect Query Method do not exist!")
  else
    match method with
    | .vstr s =>
      if onDisconnectMethodKeys.contains s then .ok s
      else .error (.jsError "On Disconnect Query Method must be one of the OnDisconnectMethodMap keys.")
    | _ => .error (.typeError "On Disconnect Query Method must be a string!")

/-- Constraint-set keys accepted by `RTDB.applyQueryConstraints` (the `case`
labels of its `switch`). -/
def validConstraintKeys : List String :=
  ["endAt", "endBefore", "equalTo", "startAfter", "startAt",
   "limitToFirst", "limitToLast", "orderByChild",
   "orderByKey", "orderByPriority", "orderByValue"]

/-- Query constraint as applied to the backend reference or constraint list
(both backend branches of `applyQueryConstraints` validate identically and
forward the same data, so one shape covers both). -/
inductive AppliedConstraint where
  | range (method : String) (value : JSValue) (key : JSValue)
  | limit (method : String) (value : Rat)
  | orderByChild (child : String)
  | order (method : String)

/-- Embeds one iteration of the `switch` in `RTDB.applyQueryConstraints` on
entry `(method, value)` of the constraint set. -/
def applyOne (method : String) (value : JSValue) : Except JSError AppliedConstraint :=
  if method = "endAt" ∨ method = "endBefore" ∨ method = "equalTo" ∨
      method = "startAfter" ∨ method = "startAt" then
    if value.jsTypeof ≠ "object" then
      .error (.typeError ("The value of the \"" ++ method ++ "\" constraint must be an object!"))
    else if (value.getField "value").isUndefined then
      .error (.typeError ("The value of the \"" ++ method ++
        "\" constraint must be an object containing \"value\" as key."))
    else if (value.getField "value").jsTypeof ≠ "string" ∧
        (value.getField "value").jsTypeof ≠ "boolean" ∧
        (value.getField "value").jsTypeof ≠ "number" ∧
        ¬ (value.getField "value").isNull then
      .error (.typeError ("The value of the \"" ++ method ++
        ".value\" constraint must be a boolean, number, string or null!"))
    else if (value.getField "key").isNull ∨
        ((value.getField "key").truthy ∧ (value.getField "key").jsTypeof ≠ "string") then
      .error (.typeError ("The value of the \"" ++ method ++ ".key\" constraint must be a string!"))
    else .ok (.range method (value.getField "value") (value.getField "key"))
  else if method = "limitToFirst" ∨ method = "limitToLast" then
    match value with
    | .vnum q => .ok (.limit method q)
    | _ => .error (.typeError ("The value of the \"" ++ method ++ "\" constraint must be a number!"))
  else if method = "orderByChild" then
    match value with
    | .vstr child => .ok (.orderByChild child)
    | _ => .error (.typeError ("The value of the \"" ++ method ++ "\" constraint must be a string!"))
  else if method = "orderByKey" ∨ method = "orderByPriority" ∨ method = "orderByValue" then
    if value.isNull then .ok (.order method)
    else .error (.typeError ("The value of the \"" ++ method ++ "\" constraint must be null!"))
  else .error (.jsError ("Query constraint received: \"" ++ method ++ "\" is invalid!"))

/-- Embeds the entry loop of `RTDB.applyQueryConstraints`: entries are
validated and applied in insertion order, and the first failure aborts the
whole call (the exception propagates before any backend fetch or listener
registration, discarding constraints already pushed). -/
def applyList : List (String × JSValue) → Except JSError (List AppliedConstraint)
  | [] => .ok []
  | (method, value) :: rest =>
    match applyOne method value with
    | .error e => .error e
    | .ok c =>
      match applyList rest with
      | .error e => .error e
      | .ok cs => .ok (c :: cs)

/-- Embeds `RTDB.applyQueryConstraints(constraints)`: an absent argument
defaults to the empty object, a non-object argument throws, and otherwise
the entries are processed in order. -/
def applyQueryConstraints (constraints : JSValue) : Except JSError (List AppliedConstraint) :=
  if constraints.isUndefined then applyList []
  else if constraints.jsTypeof ≠ "object" then
    .error (.typeError "Query Constraint must be an Object!")
  else applyList constraints.objFields

/-- Backend operation issued by an entry point once validation has passed.
Each constructor records the active backend (`admin`), the resolved path
(`none` is the root) and the forwarded arguments; a `.write` or
`.onDisconnect` with `args = []` is the corresponding backend method invoked
with no value argument. -/
inductive BackendCall where
  | get (admin : Bool) (path : Option String) (cs : List AppliedConstraint)
  | subscribe (admin : Bool) (listener : String) (path : Option String) (cs : List AppliedConstraint)
  | adminOff (listener : String) (path : Option String)
  | clientUnsubscribe
  | write (admin : Bool) (method : String) (path : Option String) (args : List JSValue)
  | onDisconnect (admin : Bool) (method : String) (path : Option String) (args : List JSValue)

/-- Embeds `RTDB.doGetQuery(path, constraints)` on either backend: an `.ok`
result is the single backend fetch performed, an `.error` is an exception
thrown before any fetch. -/
def doGetQuery (admin : Bool) (path constraints : JSValue) : Except JSError BackendCall :=
  match checkPath path true with
  | .error e => .error e
  | .ok p =>
    match applyQueryConstraints constraints with
    | .error e => .error e
    | .ok cs => .ok (.get admin p cs)

/-- Embeds `RTDB.doSubscriptionQuery(listener, callback, path, constraints)`:
an `.ok` result is the single listener registration performed. -/
def doSubscriptionQuery (admin : Bool) (listener : String) (callback path constraints : JSValue) :
    Except JSError BackendCall :=
  match checkPath path true with
  | .error e => .error e
  | .ok p =>
    if callback.jsTypeof ≠ "function" then .error (.typeError "The callback must be a function")
    else if ¬ listenerKeys.contains listener then
      .error (.jsError ("The listener \"" ++ listener ++ "\" is invalid!"))
    else
      match applyQueryConstraints constraints with
      | .error e => .error e
      | .ok cs => .ok (.subscribe admin listener p cs)

/-- Embeds `RTDB.doUnSubscriptionQuery(listener, unsubscriptionCallback,
path)`: `.ok (some c)` is the single backend detach performed, `.ok none`
means nothing was detached. -/
def doUnSubscriptionQuery (admin : Bool) (listener : String)
    (unsubscriptionCallback path : JSValue) : Except JSError (Option BackendCall) :=
  match checkPath path true with
  | .error e => .error e
  | .ok p =>
    if unsubscriptionCallback.jsTypeof ≠ "function" then
      .error (.typeError "The unsubscriptionCallback must be a function")
    else if ¬ listenerKeys.contains listener then
      .error (.jsError ("The listener \"" ++ listener ++ "\" is invalid!"))
    else if admin then
      if unsubscriptionCallback.truthy then .ok (some (.adminOff listener p)) else .ok none
    else
      if unsubscriptionCallback.truthy then .ok (some .clientUnsubscribe) else .ok none

/-- Embeds `RTDB.doWriteQuery(method, path, value, priority)` (the source
destructures `...args` into `[value, priority]`).  The admin branch passes
an error callback to `setPriority`; that callback is not part of the written
data and is not recorded.  Runtime method names outside the `switch` labels
(the reverse numeric enum keys) take the `default` branch. -/
def doWriteQuery (admin : Bool) (method path value priority : JSValue) :
    Except JSError BackendCall :=
  match checkQueryMethod method with
  | .error e => .error e
  | .ok m =>
    match checkPath path false with
    | .error e => .error e
    | .ok p =>
      if m = "update" then
        if value.truthy ∧ value.jsTypeof = "object" then .ok (.write admin "update" p [value])
        else
          .error (.typeError (if admin then "The value to write must be an object with \"update\" query"
            else "The value to write must be an object with \"update\" query."))
      else if m = "remove" then .ok (.write admin "remove" p [])
      else if m = "setPriority" then
        match checkPriority priority with
        | .error e => .error e
        | .ok pr => .ok (.write admin "setPriority" p [pr])
      else if m = "setWithPriority" then
        match checkPriority priority with
        | .error e => .error e
        | .ok pr => .ok (.write admin "setWithPriority" p [value, pr])
      else .ok (.write admin m p [value])

/-- Embeds `RTDB.setOnDisconnectQuery(method, path, value, priority)`.  The
`switch` has no `default`, so a method name among the reverse numeric enum
keys schedules nothing (`.ok none`). -/
def setOnDisconnectQuery (admin : Bool) (method path value priority : JSValue) :
    Except JSError (Option BackendCall) :=
  match checkOnDisconnectQueryMethod method with
  | .error e => .error e
  | .ok m =>
    match checkPath path false with
    | .error e => .error e
    | .ok p =>
      if m = "cancel" ∨ m = "remove" then .ok (some (.onDisconnect admin m p []))
      else if m = "set" then .ok (some (.onDisconnect admin "set" p [value]))
      else if m = "update" then
        if value.truthy ∧ value.jsTypeof = "object" then
          .ok (some (.onDisconnect admin "update" p [value]))
        else .error (.typeError "The value must be an object with \x27update\x27 query.")
      else if m = "setWithPriority" then
        match checkPriority priority with
        | .error e => .error e
        | .ok pr => .ok (some (.onDisconnect admin "setWithPriority" p [value, pr]))
      else .ok none

/-!
Connection state machine (`src/connection/connection.ts`).  The embedding is
a deterministic step relation on an explicit state: the JS `setTimeout`
registry is a list of pending timers with absolute deadlines (milliseconds),
`timeoutID` is the field of the same name (the handle of the most recently
armed timer), and `subscribed` records whether the `.info/connected`
listener is attached.  External stimuli are the delivered liveness
snapshots, the passage of time (which runs every due timer callback, in
deadline order), and a `removeConnectionState` call.
-/

/-- Enum `ConnectionState` (declared in the types module of the repository;
its four members are fixed by their uses in `connection.ts`). -/
inductive ConnectionState where
  | DISCONNECTED
  | CONNECTING
  | RE_CONNECTING
  | CONNECTED
  deriving DecidableEq, Repr

/-- Events emitted on the RTDB emitter by the connection machine (the `log`
payload string is not tracked). -/
inductive Emitted where
  | connected
  | connecting
  | disconnect
  | disconnected
  | reconnecting
  | log
  deriving DecidableEq, Repr, BEq

/-- State owned by one `Connection` instance, plus the ambient timer
registry and clock needed to interpret `setTimeout`/`clearTimeout`.
`pending` holds `(handle, deadline)` pairs of armed, not yet fired timers. -/
structure ConnState where
  state : ConnectionState := .DISCONNECTED
  firstConnectionEtablished : Bool := false
  subscribed : Bool := true
  timeoutID : Option Nat := none
  pending : List (Nat × Nat) := []
  nextId : Nat := 0
  now : Nat := 0
  deriving DecidableEq, Repr

/-- External stimulus: a liveness snapshot whose value is `=== true` or not
(`false` and absent are not distinguished by the code), elapse of `d`
milliseconds, or a `removeConnectionState` call. -/
inductive ConnEvent where
  | signal (b : Bool)
  | elapse (d : Nat)
  | teardown
  deriving DecidableEq, Repr

/-- State after construction once the deferred `subscribeConnectionState`
has run: `_state` is `DISCONNECTED`, the flag and timer fields are at their
initializers and the liveness listener is attached. -/
def initConn : ConnState := {}

/-- Advances the clock to `deadline` and runs every due timer callback in
deadline order.  Each callback body is
`this._state = ConnectionState.DISCONNECTED; this.database.emit("disconnected")`;
`timeoutID` is not reset by the callback (clearing a fired handle is a
no-op, which removal from `pending` captures). -/
def fireDue (now2 : Nat) (s : ConnState) : ConnState × List Emitted :=
  let due := s.pending.filter (fun t => t.2 ≤ now2)
  let rest := s.pending.filter (fun t => ¬ t.2 ≤ now2)
  ({ s with now := now2, pending := rest,
            state := if due.isEmpty then s.state else .DISCONNECTED },
   due.map (fun _ => .disconnected))

/-- One step of the machine.  A snapshot is delivered only while the
listener is attached.  The `true` branch clears the tracked timer and marks
the sticky flag; the `false` branch arms a fresh 30000 ms timer (overwriting
`timeoutID` without clearing the previous timer, exactly as the source
does), routes the state on the sticky flag, and emits `disconnect` only
after a previously established connection.  `teardown` invokes the stored
unsubscription callback and nothing else. -/
def step (s : ConnState) : ConnEvent → ConnState × List Emitted
  | .signal b =>
    if s.subscribed then
      if b then
        let pending2 := match s.timeoutID with
          | some i => s.pending.filter (fun t => t.1 ≠ i)
          | none => s.pending
        ({ s with state := .CONNECTED, firstConnectionEtablished := true,
                  timeoutID := none, pending := pending2 },
         [.connected, .log])
      else
        ({ s with state := if s.firstConnectionEtablished then .RE_CONNECTING else .CONNECTING,
                  timeoutID := some s.nextId, nextId := s.nextId + 1,
                  pending := s.pending ++ [(s.nextId, s.now + 30000)] },
         (if s.firstConnectionEtablished then [.disconnect, .reconnecting] else [.connecting])
           ++ [.log])
    else (s, [])
  | .elapse d => fireDue (s.now + d) s
  | .teardown => ({ s with subscribed := false }, [])

/-- Runs the machine over a stimulus sequence, concatenating emissions. -/
def run (s : ConnState) : List ConnEvent → ConnState × List Emitted
  | [] => (s, [])
  | e :: rest =>
    let r1 := step s e
    let r2 := run r1.1 rest
    (r2.1, r1.2 ++ r2.2)

/-- State of a subscription that has already seen a first connection. -/
def afterFirstConnection : ConnState :=
  { state := .CONNECTED, firstConnectionEtablished := true, subscribed := true,
    timeoutID := none, pending := [], nextId := 1, now := 5 }

/-! Helper lemmas for the connection machine. -/

/-- Stepping preserves the sticky flag and, once the flag holds, never
produces the `CONNECTING` state: every branch of the handler either leaves
the state alone or sets `CONNECTED`, `RE_CONNECTING` or `DISCONNECTED`. -/
theorem step_preserves_flag_and_avoids_connecting (s : ConnState) (e : ConnEvent)
    (h1 : s.firstConnectionEtablished = true) (h2 : s.state ≠ .CONNECTING) :
    (step s e).1.firstConnectionEtablished = true ∧ (step s e).1.state ≠ .CONNECTING := by
  cases e with
  | signal b =>
    by_cases hs : s.subscribed = true
    · cases b <;> simp [step, hs, h1]
    · simp only [Bool.not_eq_true] at hs
      simp [step, hs, h1, h2]
  | elapse d =>
    refine ⟨h1, ?_⟩
    simp only [step, fireDue]
    split <;> simp [h2]
  | teardown => exact ⟨h1, h2⟩

/-- Running any stimulus sequence preserves the sticky flag and keeps the
state away from `CONNECTING`. -/
theorem run_preserves_flag_and_avoids_connecting (evs : List ConnEvent) :
    ∀ s : ConnState, s.firstConnectionEtablished = true → s.state ≠ .CONNECTING →
      (run s evs).1.firstConnectionEtablished = true ∧ (run s evs).1.state ≠ .CONNECTING := by
  induction evs with
  | nil => intro s h1 h2; exact ⟨h1, h2⟩
  | cons e rest ih =>
    intro s h1 h2
    have hstep := step_preserves_flag_and_avoids_connecting s e h1 h2
    simpa [run] using ih (step s e).1 hstep.1 hstep.2

/-- C1: for every run of the connection machine, a `false` liveness signal
followed by 30 seconds with no intervening `true` signal makes the armed
disconnect timer fire, sets the state to `DISCONNECTED`, and emits
`disconnected` exactly once.  The code falsifies the claim: arming the
timer on a `false` signal does not clear a previously armed timer, so in
the run with two consecutive `false` signals both timers fire during the 30
seconds following the second signal and `disconnected` is emitted twice
(the state does reach `DISCONNECTED`). -/
theorem disconnect_timer_fires_twice_after_repeated_false :
    (run initConn [.signal false, .signal false, .elapse 30000]).2.count .disconnected = 2
    ∧ (run initConn [.signal false, .signal false, .elapse 30000]).1.state = .DISCONNECTED
    ∧ (run initConn [.signal false, .elapse 30000]).2.count .disconnected = 1 := by
  decide

/-- C2: at most one disconnect timer is pending at any time, arming on a
`false` signal cancelling any previously armed timer.  The code falsifies
the invariant: `this.timeoutID = setTimeout(...)` overwrites the handle
without `clearTimeout`, so after two `false` signals two timers are
pending; moreover a subsequent `true` signal clears only the tracked one,
and the leaked timer still fires, forcing `DISCONNECTED` and emitting
`disconnected` even though the machine had just reconnected. -/
theorem repeated_false_signals_accumulate_timers :
    (run initConn [.signal false, .signal false]).1.pending.length = 2
    ∧ (run initConn [.signal false, .signal false, .signal true, .elapse 30000]).1.state
        = .DISCONNECTED
    ∧ (run initConn [.signal false, .signal false, .signal true, .elapse 30000]).2.count
        .disconnected = 1 := by
  decide

/-- C3: on every `false`/absent liveness signal the machine moves to
`CONNECTING` when no connection was ever established and to `RE_CONNECTING`
otherwise, emits `disconnect` exactly when a connection had been
established (likewise `connecting` versus `re-connecting`), the sticky flag
is unchanged by the drop, and once the flag holds the machine can never be
in `CONNECTING` again under any further stimulus sequence. -/
theorem false_signal_routing_on_sticky_flag (s : ConnState) (hs : s.subscribed = true) :
    ((step s (.signal false)).1.state
        = if s.firstConnectionEtablished then .RE_CONNECTING else .CONNECTING)
    ∧ ((step s (.signal false)).2.contains .disconnect = s.firstConnectionEtablished)
    ∧ ((step s (.signal false)).2.contains .reconnecting = s.firstConnectionEtablished)
    ∧ ((step s (.signal false)).2.contains .connecting = !s.firstConnectionEtablished)
    ∧ ((step s (.signal false)).1.firstConnectionEtablished = s.firstConnectionEtablished)
    ∧ (∀ evs : List ConnEvent, s.firstConnectionEtablished = true →
        s.state ≠ .CONNECTING → (run s evs).1.state ≠ .CONNECTING) := by
  refine ⟨?_, ?_, ?_, ?_, ?_, ?_⟩
  · cases hf : s.firstConnectionEtablished <;> simp [step, hs, hf]
  · cases hf : s.firstConnectionEtablished <;> simp [step, hs, hf] <;> decide
  · cases hf : s.firstConnectionEtablished <;> simp [step, hs, hf] <;> decide
  · cases hf : s.firstConnectionEtablished <;> simp [step, hs, hf] <;> decide
  · cases hf : s.firstConnectionEtablished <;> simp [step, hs, hf]
  · intro evs h1 h2
    exact (run_preserves_flag_and_avoids_connecting evs s h1 h2).2

/-- Witness for C3 at a concrete post-connection state: the drop routes to
`RE_CONNECTING` and emits `disconnect`. -/
theorem false_signal_routing_on_sticky_flag_witness :
    (step afterFirstConnection (.signal false)).1.state = .RE_CONNECTING
    ∧ (step afterFirstConnection (.signal false)).2.contains .disconnect = true := by
  have h := false_signal_routing_on_sticky_flag afterFirstConnection rfl
  exact ⟨by simpa [afterFirstConnection] using h.1,
         by simpa [afterFirstConnection] using h.2.1⟩

/-- C4: after `removeConnectionState` the liveness listener is detached and
any pending disconnect timer is cleared, so no later expiry mutates the
state or emits.  The code falsifies the timer half: `removeConnectionState`
only invokes the stored unsubscription callback and never calls
`clearTimeout`, so in the run signal-`false`, teardown, 30 s elapse the
armed timer survives teardown, still fires, sets `DISCONNECTED` and emits
`disconnected`.  (The listener half does hold: after teardown a `true`
signal is ignored.) -/
theorem pending_timer_survives_removeConnectionState :
    (run initConn [.signal false, .teardown]).1.subscribed = false
    ∧ (run initConn [.signal false, .teardown]).1.pending.length = 1
    ∧ (run initConn [.signal false, .teardown, .elapse 30000]).1.state = .DISCONNECTED
    ∧ (run initConn [.signal false, .teardown, .elapse 30000]).2.count .disconnected = 1
    ∧ (run initConn [.signal false, .teardown, .signal true]).1.state = .CONNECTING
    ∧ (run initConn [.signal false, .teardown, .signal true]).2.count .connected = 0 := by
  decide

/-! Helper lemmas for the query engine. -/

/-- An entry with a key outside the `switch` labels makes `applyOne` take
the `default` branch and throw. -/
theorem applyOne_unknown_key (method : String) (value : JSValue)
    (h : ¬ method ∈ validConstraintKeys) :
    applyOne method value
      = .error (.jsError ("Query constraint received: \"" ++ method ++ "\" is invalid!")) := by
  simp only [validConstraintKeys, List.mem_cons, List.mem_singleton, not_or] at h
  obtain ⟨h1, h2, h3, h4, h5, h6, h7, h8, h9, h10, h11⟩ := h
  simp [applyOne, h1, h2, h3, h4, h5, h6, h7, h8, h9, h10, h11]

/-- If any entry of the constraint set fails its own validation, the whole
entry loop throws. -/
theorem applyList_isOk_false_of_bad_entry (l : List (String × JSValue))
    (h : ∃ p ∈ l, (applyOne p.1 p.2).isOk = false) :
    (applyList l).isOk = false := by
  induction l with
  | nil => simp at h
  | cons hd tl ih =>
    obtain ⟨p, hp, hbad⟩ := h
    rcases List.mem_cons.mp hp with rfl | hptl
    · rcases he : applyOne p.1 p.2 with e | c
      · rw [show applyList (p :: tl) = .error e by simp [applyList, he]]; rfl
      · rw [he] at hbad; simp [Except.isOk, Except.toBool] at hbad
    · rcases he : applyOne hd.1 hd.2 with e | c
      · rw [show applyList (hd :: tl) = .error e by simp [applyList, he]]; rfl
      · have htl := ih ⟨p, hptl, hbad⟩
        rcases hl : applyList tl with e2 | cs
        · rw [show applyList (hd :: tl) = .error e2 by simp [applyList, he, hl]]; rfl
        · rw [hl] at htl; simp [Except.isOk, Except.toBool] at htl

/-- A failing constraint set makes `doGetQuery` throw before the fetch. -/
theorem doGetQuery_isOk_false_of_constraints (admin : Bool) (path constraints : JSValue)
    (h : (applyQueryConstraints constraints).isOk = false) :
    (doGetQuery admin path constraints).isOk = false := by
  rcases hcp : checkPath path true with e | p
  · simp [doGetQuery, hcp, Except.isOk, Except.toBool]
  · rcases hc : applyQueryConstraints constraints with e | cs
    · simp [doGetQuery, hcp, hc, Except.isOk, Except.toBool]
    · rw [hc] at h; simp [Except.isOk, Except.toBool] at h

/-- A failing constraint set makes `doSubscriptionQuery` throw before the
listener registration (whatever the listener and callback arguments are). -/
theorem doSubscriptionQuery_isOk_false_of_constraints (admin : Bool) (listener : String)
    (callback path constraints : JSValue)
    (h : (applyQueryConstraints constraints).isOk = false) :
    (doSubscriptionQuery admin listener callback path constraints).isOk = false := by
  rcases hcp : checkPath path true with e | p
  · simp [doSubscriptionQuery, hcp, Except.isOk, Except.toBool]
  · rcases hc : applyQueryConstraints constraints with e | cs
    · simp only [doSubscriptionQuery, hcp]
      split_ifs <;> simp [hc, Except.isOk, Except.toBool]
    · rw [hc] at h; simp [Except.isOk, Except.toBool] at h

/-- A constraint set (given as an object) containing a bad entry fails
`applyQueryConstraints`. -/
theorem applyQueryConstraints_isOk_false_of_bad_entry (fields : List (String × JSValue))
    (h : ∃ p ∈ fields, (applyOne p.1 p.2).isOk = false) :
    (applyQueryConstraints (.vobj fields)).isOk = false := by
  simpa [applyQueryConstraints, JSValue.isUndefined, JSValue.jsTypeof, JSValue.objFields]
    using applyList_isOk_false_of_bad_entry fields h

/-- C5: for every constraint set containing a key outside the eleven
enumerated constraint names, `doGetQuery` and `doSubscriptionQuery` throw
synchronously before any backend fetch or listener registration (the
`.error` result means no `BackendCall` is produced, so no constraint of the
set is partially applied). -/
theorem unknown_constraint_key_rejected_before_backend (admin : Bool) (listener : String)
    (callback path : JSValue) (fields : List (String × JSValue))
    (h : ∃ p ∈ fields, ¬ p.1 ∈ validConstraintKeys) :
    (doGetQuery admin path (.vobj fields)).isOk = false
    ∧ (doSubscriptionQuery admin listener callback path (.vobj fields)).isOk = false := by
  obtain ⟨p, hp, hbad⟩ := h
  have hone : (applyOne p.1 p.2).isOk = false := by
    rw [applyOne_unknown_key p.1 p.2 hbad]; rfl
  have hc := applyQueryConstraints_isOk_false_of_bad_entry fields ⟨p, hp, hone⟩
  exact ⟨doGetQuery_isOk_false_of_constraints admin path _ hc,
         doSubscriptionQuery_isOk_false_of_constraints admin listener callback path _ hc⟩

/-- Witness for C5 at the concrete unknown key `orderByFoo`. -/
theorem unknown_constraint_key_rejected_before_backend_witness :
    (doGetQuery false .vundefined (.vobj [("orderByFoo", .vnull)])).isOk = false :=
  (unknown_constraint_key_rejected_before_backend false "value" .vfun .vundefined
    [("orderByFoo", .vnull)] ⟨("orderByFoo", .vnull), by simp, by decide⟩).1

/-- C6 counterexample: the claim says a call with an absent unsubscription
handle detaches nothing and raises no error, but the source first runs
`if (typeof unsubscriptionCallback !== "function") throw new TypeError(...)`,
so the concrete call with an `undefined` handle throws. -/
theorem doUnSubscriptionQuery_missing_handle_throws :
    doUnSubscriptionQuery false "value" .vundefined .vundefined
      = .error (.typeError "The unsubscriptionCallback must be a function") := rfl

/-- C6 amended: for every backend and listener kind, calling
`doUnSubscriptionQuery` with an `undefined` handle throws the callback
TypeError (and hence detaches nothing); it is not a silent no-op. -/
theorem doUnSubscriptionQuery_missing_handle_rejected (admin : Bool) (listener : String) :
    doUnSubscriptionQuery admin listener .vundefined .vundefined
      = .error (.typeError "The unsubscriptionCallback must be a function") := by
  cases admin <;> rfl

/-- C7: every path that is empty after trimming is rejected by the
non-empty entry points before any backend mutation.  The code falsifies
this for whitespace-only paths: `checkPath` tests `!path` before trimming,
so `" "` passes every check and the final `path.trim() || undefined`
returns `undefined`; `doWriteQuery` and `setOnDisconnectQuery` then issue
their backend mutation against the root location.  (The genuinely empty
string `""` is rejected as the claim expects.) -/
theorem whitespace_only_path_reaches_backend :
    checkPath (.vstr " ") false = .ok none
    ∧ checkPath (.vstr "") false = .error (.typeError "PATH must be non-empty string!")
    ∧ doWriteQuery false (.vstr "set") (.vstr " ") (.vnum 5) .vundefined
        = .ok (.write false "set" none [.vnum 5])
    ∧ doWriteQuery true (.vstr "set") (.vstr " ") (.vnum 5) .vundefined
        = .ok (.write true "set" none [.vnum 5])
    ∧ setOnDisconnectQuery false (.vstr "set") (.vstr " ") (.vnum 5) .vundefined
        = .ok (some (.onDisconnect false "set" none [.vnum 5])) :=
  ⟨rfl, rfl, rfl, rfl, rfl⟩

/-- C9 counterexample: the claim says a `limitToFirst`/`limitToLast` value
that is not a positive integer is rejected, but the source only checks
`typeof value !== "number"`; the concrete set with `limitToFirst: 0` passes
validation and the constraint is forwarded to the backend. -/
theorem limit_constraint_zero_accepted :
    doGetQuery false .vundefined (.vobj [("limitToFirst", .vnum 0)])
      = .ok (.get false none [.limit "limitToFirst" 0])
    ∧ doSubscriptionQuery false "value" .vfun .vundefined (.vobj [("limitToLast", .vnum (-5))])
      = .ok (.subscribe false "value" none [.limit "limitToLast" (-5)]) :=
  ⟨rfl, rfl⟩

/-- C9 amended: a `limitToFirst`/`limitToLast` entry whose value is not a
number makes `doGetQuery` and `doSubscriptionQuery` throw before any
backend call, while every number value — including zero, negative and
non-integer numbers — passes the validation of the repository and is
forwarded unchanged to the backend limit constructor. -/
theorem limit_constraint_number_check (m : String)
    (hm : m = "limitToFirst" ∨ m = "limitToLast") (v : JSValue)
    (hv : v.jsTypeof ≠ "number") (fields : List (String × JSValue))
    (hmem : (m, v) ∈ fields) (admin : Bool) (listener : String) (callback path : JSValue) :
    (doGetQuery admin path (.vobj fields)).isOk = false
    ∧ (doSubscriptionQuery admin listener callback path (.vobj fields)).isOk = false
    ∧ (∀ q : Rat, doGetQuery admin .vundefined (.vobj [(m, .vnum q)])
        = .ok (.get admin none [.limit m q])) := by
  have hone : (applyOne m v).isOk = false := by
    rcases hm with rfl | rfl <;>
      · cases v <;> simp_all [applyOne, JSValue.jsTypeof, Except.isOk, Except.toBool]
  have hc := applyQueryConstraints_isOk_false_of_bad_entry fields ⟨(m, v), hmem, hone⟩
  refine ⟨doGetQuery_isOk_false_of_constraints admin path _ hc,
          doSubscriptionQuery_isOk_false_of_constraints admin listener callback path _ hc, ?_⟩
  intro q
  rcases hm with rfl | rfl <;>
    simp [doGetQuery, checkPath, applyQueryConstraints, applyList, applyOne,
      JSValue.isUndefined, JSValue.jsTypeof, JSValue.objFields, JSValue.truthy]

/-- Witness for C9 (amended) at the concrete entry `limitToFirst: "x"`. -/
theorem limit_constraint_number_check_witness :
    (doGetQuery false .vundefined (.vobj [("limitToFirst", .vstr "x")])).isOk = false :=
  (limit_constraint_number_check "limitToFirst" (Or.inl rfl) (.vstr "x") (by decide)
    [("limitToFirst", .vstr "x")] (by simp) false "value" .vfun .vundefined).1

/-- C10: a `remove` write is independent of its value argument — for every
backend and every valid non-empty path, any two value (and priority)
arguments produce the identical backend call, `remove` invoked with no
arguments. -/
theorem remove_write_ignores_value (admin : Bool) (path v1 v2 prio1 prio2 : JSValue)
    (p : String) (h : checkPath path false = .ok (some p)) :
    doWriteQuery admin (.vstr "remove") path v1 prio1
        = .ok (.write admin "remove" (some p) [])
    ∧ doWriteQuery admin (.vstr "remove") path v2 prio2
        = .ok (.write admin "remove" (some p) []) := by
  constructor <;> simp [doWriteQuery, checkQueryMethod, queryMethodKeys, h,
    JSValue.isUndefined]

/-- Witness for C10 at the concrete path `foo` and two distinct values. -/
theorem remove_write_ignores_value_witness :
    doWriteQuery false (.vstr "remove") (.vstr "foo") (.vnum 1) .vundefined
        = .ok (.write false "remove" (some "foo") [])
    ∧ doWriteQuery false (.vstr "remove") (.vstr "foo") (.vstr "bar") .vundefined
        = .ok (.write false "remove" (some "foo") []) := by
  have h := remove_write_ignores_value false (.vstr "foo") (.vnum 1) (.vstr "bar")
    .vundefined .vundefined "foo" (by rfl)
  exact ⟨h.1, h.2⟩

/-! Helper lemmas about the modelled number/string builtins, used for C8. -/

/-- Code point of the digit character of `d < 10`. -/
theorem digitChar_toNat (d : Nat) (h : d < 10) : (digitChar d).toNat = 48 + d := by
  interval_cases d <;> rfl

/-- The digit character of `d < 10` is a decimal digit. -/
theorem isDigitChar_digitChar (d : Nat) (h : d < 10) : isDigitChar (digitChar d) = true := by
  interval_cases d <;> rfl

/-- A decimal digit character is not JS whitespace. -/
theorem digit_not_whitespace (c : Char) (h : isDigitChar c = true) :
    isJsWhitespace c = false := by
  simp only [isDigitChar, Bool.and_eq_true, decide_eq_true_eq] at h
  simp only [isJsWhitespace, Bool.or_eq_false_iff, decide_eq_false_iff_not]
  omega

/-- A decimal digit character is not the dot. -/
theorem digit_not_dot (c : Char) (h : isDigitChar c = true) : ¬ c.toNat = 46 := by
  simp only [isDigitChar, Bool.and_eq_true, decide_eq_true_eq] at h
  omega

/-- Appending one character multiplies the accumulated value by ten. -/
theorem digitsVal_append_singleton (l : List Char) (c : Char) :
    digitsVal (l ++ [c]) = digitsVal l * 10 + (c.toNat - 48) := by
  simp [digitsVal, List.foldl_append]

/-- With sufficient fuel the decimal rendering of `n` is a nonempty list of
digit characters whose value is `n`. -/
theorem natToCharsAux_spec : ∀ fuel n : Nat, n < fuel →
    natToCharsAux fuel n ≠ [] ∧ (natToCharsAux fuel n).all isDigitChar = true
      ∧ digitsVal (natToCharsAux fuel n) = n := by
  intro fuel
  induction fuel with
  | zero => intro n h; omega
  | succ f ih =>
    intro n h
    by_cases h10 : n < 10
    · refine ⟨by simp [natToCharsAux, h10], ?_, ?_⟩
      · simp [natToCharsAux, h10, isDigitChar_digitChar n h10]
      · simp [natToCharsAux, h10, digitsVal, digitChar_toNat n h10]
    · have hdiv : n / 10 < n := Nat.div_lt_self (by omega) (by omega)
      obtain ⟨hne, hall, hval⟩ := ih (n / 10) (by omega)
      have hmod : n % 10 < 10 := Nat.mod_lt _ (by omega)
      refine ⟨by simp [natToCharsAux, h10], ?_, ?_⟩
      · simp [natToCharsAux, h10, List.all_append, hall, isDigitChar_digitChar _ hmod]
      · have := Nat.div_add_mod n 10
        simp only [natToCharsAux, if_neg h10]
        rw [digitsVal_append_singleton, hval, digitChar_toNat _ hmod]
        omega

/-- Dropping whitespace from an all-digit list changes nothing. -/
theorem dropWhile_ws_eq_self_of_digits (l : List Char) (h : l.all isDigitChar = true) :
    l.dropWhile isJsWhitespace = l := by
  cases l with
  | nil => rfl
  | cons c cs =>
    simp only [List.all_cons, Bool.and_eq_true] at h
    simp [List.dropWhile_cons, digit_not_whitespace c h.1]

/-- Trimming an all-digit list changes nothing. -/
theorem jsTrimChars_eq_self_of_digits (l : List Char) (h : l.all isDigitChar = true) :
    jsTrimChars l = l := by
  unfold jsTrimChars
  rw [dropWhile_ws_eq_self_of_digits l h,
    dropWhile_ws_eq_self_of_digits l.reverse (by simpa using h), List.reverse_reverse]

/-- Splitting an all-digit list at dots yields the list itself. -/
theorem splitDot_eq_of_digits (l : List Char) (h : l.all isDigitChar = true) :
    splitDot l = [l] := by
  induction l with
  | nil => rfl
  | cons c cs ih =>
    simp only [List.all_cons, Bool.and_eq_true] at h
    simp [splitDot, digit_not_dot c h.1, ih h.2]

/-- Parsing an all-digit nonempty list recovers its value. -/
theorem parseDec_of_digits (l : List Char) (hne : l ≠ [])
    (h : l.all isDigitChar = true) : parseDec l = some ((digitsVal l : Nat) : Rat) := by
  unfold parseDec
  rw [splitDot_eq_of_digits l h]
  simp [hne, h]

/-- Roundtrip of the modelled builtins: `Number(String(n)) = n`. -/
theorem jsNumber_jsStringOfNat (n : Nat) : jsNumber (jsStringOfNat n) = some ((n : Nat) : Rat) := by
  obtain ⟨hne, hall, hval⟩ := natToCharsAux_spec (n + 1) n (Nat.lt_succ_self n)
  have hdata : (jsStringOfNat n).data = natToCharsAux (n + 1) n := rfl
  obtain ⟨c, cs, hcons⟩ := List.exists_cons_of_ne_nil hne
  have hcd : isDigitChar c = true := by
    have hall2 := hall
    rw [hcons, List.all_cons, Bool.and_eq_true] at hall2
    exact hall2.1
  have hcm : c ≠ '-' := by intro hc; rw [hc] at hcd; exact absurd hcd (by decide)
  have hcp : c ≠ '+' := by intro hc; rw [hc] at hcd; exact absurd hcd (by decide)
  unfold jsNumber
  rw [hdata, jsTrimChars_eq_self_of_digits _ hall, hcons]
  simp only [jsNumberChars]
  rw [if_neg hcm, if_neg hcp, ← hcons, parseDec_of_digits _ hne hall, hval]

/-- C8: `checkPriority` round-trips valid priorities and rejects the rest:
every positive integer `n` passes through unchanged, both as a number and
as its decimal string (the modelled `String(n)`); `null` passes through;
`0`, `-1` and the non-numeric string `abc` are rejected; and in general
every string whose `Number(...)` coercion is not a positive integer is
rejected. -/
theorem checkPriority_roundtrip :
    (∀ n : Nat, 0 < n → checkPriority (.vnum (n : Rat)) = .ok (.vnum (n : Rat)))
    ∧ (∀ n : Nat, 0 < n → checkPriority (.vstr (jsStringOfNat n)) = .ok (.vnum (n : Rat)))
    ∧ checkPriority .vnull = .ok .vnull
    ∧ (checkPriority (.vnum 0)).isOk = false
    ∧ (checkPriority (.vnum (-1))).isOk = false
    ∧ (checkPriority (.vstr "abc")).isOk = false
    ∧ (∀ s : String, (∀ q : Rat, jsNumber s = some q → ¬ (q.den = 1 ∧ 0 < q)) →
        (checkPriority (.vstr s)).isOk = false) := by
  refine ⟨?_, ?_, rfl, ?_, ?_, ?_, ?_⟩
  · intro n hn
    have hpos : (0 : Rat) < (n : Rat) := by exact_mod_cast hn
    simp [checkPriority, JSValue.isNull, JSValue.isUndefined, Rat.den_natCast, hpos]
  · intro n hn
    have hpos : (0 : Rat) < (n : Rat) := by exact_mod_cast hn
    simp [checkPriority, JSValue.isNull, JSValue.isUndefined, jsNumber_jsStringOfNat n,
      Rat.den_natCast, hpos]
  · simp [checkPriority, JSValue.isNull, JSValue.isUndefined, Except.isOk, Except.toBool]
  · norm_num [checkPriority, JSValue.isNull, JSValue.isUndefined, Except.isOk, Except.toBool]
  · decide
  · intro s h
    simp only [checkPriority, JSValue.isNull, JSValue.isUndefined]
    rcases hjs : jsNumber s with _ | q
    · simp [hjs, Except.isOk, Except.toBool]
    · simp [hjs, h q hjs, Except.isOk, Except.toBool]

/-- Witness for C8 at the concrete positive integer 3, in both the number
form and the decimal-string form. -/
theorem checkPriority_roundtrip_witness :
    checkPriority (.vnum ((3 : Nat) : Rat)) = .ok (.vnum ((3 : Nat) : Rat))
    ∧ checkPriority (.vstr (jsStringOfNat 3)) = .ok (.vnum ((3 : Nat) : Rat)) :=
  ⟨checkPriority_roundtrip.1 3 (by norm_num), checkPriority_roundtrip.2.1 3 (by norm_num)⟩

/-- Sanity check of the modelled builtins on concrete values. -/
theorem modelled_builtin_examples :
    jsStringOfNat 0 = "0" ∧ jsStringOfNat 3 = "3" ∧ jsStringOfNat 30456 = "30456"
    ∧ jsNumber "12" = some 12 ∧ jsNumber " 12 " = some 12 ∧ jsNumber "abc" = none
    ∧ jsNumber "" = some 0 ∧ jsNumber "-3" = some (-3) ∧ jsNumber "1e3" = none := by
  decide

end FirebaseNodeJS
